import Mathlib

/-!
Verification of the lead-qualification and routing engine of the
hubspot-backend repository: the scoring function `calculateLeadScore`,
the two categorizers `getCategory` and `categorizeLead`, the deal-value
estimator `estimateDealValue`, the territory assignment engine
`assignTerritory`, the intent-signal aggregator `calculateSignalStrength`,
and the request-handling pipelines of the two server variants
(the GTM orchestrator `POST /api/hubspot/contacts` handler and the
agent `POST /api/leads` handler).

JavaScript values that may be `undefined` are modelled as `Option`;
the JS `a || b` fallback on strings (where the empty string is falsy)
is modelled by `jsOrStr`; case-insensitive substring tests
(`s.toLowerCase().includes(t.toLowerCase())`) are modelled by
`strIncludesCI` over character lists.
-/

/-- ASCII lower-casing, modelling JS `String.prototype.toLowerCase` on the
ASCII identifiers used by the source. -/
def jsToLower (s : String) : String := String.mk (s.toList.map Char.toLower)

/-- Decides whether `sub` occurs as a prefix of `s` (character lists). -/
def charsPrefixOf : List Char → List Char → Bool
  | [], _ => true
  | _ :: _, [] => false
  | a :: as, b :: bs => a = b && charsPrefixOf as bs

/-- Decides whether `sub` occurs as a contiguous substring of `s`
(character lists), modelling JS `String.prototype.includes`. -/
def charsInfixOf (sub : List Char) : List Char → Bool
  | [] => sub.isEmpty
  | b :: bs => charsPrefixOf sub (b :: bs) || charsInfixOf sub bs

/-- Case-insensitive substring test: JS `s.toLowerCase().includes(sub.toLowerCase())`. -/
def strIncludesCI (s sub : String) : Bool :=
  charsInfixOf (jsToLower sub).toList (jsToLower s).toList

/-- JS `a || b` for possibly-undefined strings: `undefined` and the empty
string are falsy and fall through to `b`. -/
def jsOrStr : Option String → Option String → Option String
  | some s, b => if s = "" then b else some s
  | none, b => b

/-- Company attributes of an enriched profile, as read by
`calculateLeadScore` (src/unnamed/part_001): `revenue`, `employees`,
`technologies`, `industry`, every one possibly absent. -/
structure CompanyData where
  revenue : Option Int
  employees : Option Int
  technologies : Option (List String)
  industry : Option String
deriving DecidableEq, Repr

/-- Intent-signal bundle of an enriched profile: only the aggregate
`signalStrength` field is read by the scoring engine. -/
structure IntentData where
  signalStrength : Option String
deriving DecidableEq, Repr

/-- Person attributes of an enriched profile: only `title` is read by the
scoring engine. -/
structure PersonData where
  title : Option String
deriving DecidableEq, Repr

/-- Funding attributes of an enriched profile, as referenced by
`recent_funding: enrichedData.funding?.recentRound` in
src/hubspot-integration.js (line 39) and by the `lastFundingDate`
field of the Clay company enrichment. -/
structure FundingData where
  recentRound : Bool
  daysSinceLastRound : Option Int
deriving DecidableEq, Repr

/-- Enriched profile shape read by `calculateLeadScore`: the function reads
`company`, `technologies`, `intent` and `person.title`; the `funding`
field exists on profiles (src/hubspot-integration.js line 39) but is
never read by the scoring engine. -/
structure EnrichedData where
  company : Option CompanyData
  technologies : Option (List String)
  intent : Option IntentData
  person : Option PersonData
  funding : Option FundingData
deriving DecidableEq, Repr

/-- The empty/absent profile: JS passes `{}` (or `undefined`) to
`calculateLeadScore` when no enrichment is stored. -/
def emptyProfile : EnrichedData :=
  { company := none, technologies := none, intent := none,
    person := none, funding := none }

/-- Lead fields read by the scoring engine and the pipelines. -/
structure LeadData where
  email : Option String
  title : Option String
  industry : Option String
  companySize : Option String
deriving DecidableEq, Repr

/-- The fixed target-technology list of `calculateLeadScore`. -/
def targetTech : List String :=
  ["QuickBooks", "NetSuite", "Salesforce", "Stripe", "Shopify", "Square"]

/-- Number of target technologies matched by the detected stack:
`targetTech.filter(tech => technologies.some(t => t.toLowerCase().includes(tech.toLowerCase()))).length`. -/
def techMatches (technologies : List String) : Nat :=
  (targetTech.filter fun tech =>
    technologies.any fun t => strIncludesCI t tech).length

/-- Company size and revenue contribution of `calculateLeadScore`
(the `if (enrichedData?.company)` block): +25 for revenue in 2M..100M,
+10 additionally for revenue in 5M..50M, +15 for employees in 10..500;
absent fields default to 0 via `|| 0`. -/
def companyContrib (e : EnrichedData) : Nat :=
  match e.company with
  | none => 0
  | some c =>
    let revenue := c.revenue.getD 0
    let employees := c.employees.getD 0
    (if 2000000 ≤ revenue ∧ revenue ≤ 100000000 then 25 else 0)
    + (if 5000000 ≤ revenue ∧ revenue ≤ 50000000 then 10 else 0)
    + (if 10 ≤ employees ∧ employees ≤ 500 then 15 else 0)

/-- The technology list used by the scoring block:
`enrichedData.technologies || enrichedData.company.technologies || []`
(a present-but-empty array is truthy in JS, so presence decides). -/
def techList (e : EnrichedData) : Option (List String) :=
  match e.technologies, e.company with
  | some ts, _ => some ts
  | none, some c => c.technologies
  | none, none => none

/-- Technology-stack contribution: +10 per matched target technology,
unbounded before the final clamp. -/
def techContrib (e : EnrichedData) : Nat :=
  match techList e with
  | none => 0
  | some ts => 10 * techMatches ts

/-- Intent-signal contribution of `calculateLeadScore`:
very_high +25, high +20, medium +15, low +10. -/
def intentContrib (e : EnrichedData) : Nat :=
  match e.intent with
  | none => 0
  | some i =>
    if i.signalStrength = some "very_high" then 25
    else if i.signalStrength = some "high" then 20
    else if i.signalStrength = some "medium" then 15
    else if i.signalStrength = some "low" then 10
    else 0

/-- The high-value title substring list of `calculateLeadScore`. -/
def highValueTitles : List String :=
  ["CEO", "CFO", "VP Finance", "Controller", "Finance Director", "COO"]

/-- The title consulted for scoring:
`leadData.title || enrichedData?.person?.title || ''`. -/
def effectiveTitle (l : LeadData) (e : EnrichedData) : String :=
  (jsOrStr l.title (e.person.bind fun p => p.title)).getD ""

/-- Job-title contribution: +20 if the title contains a high-value title
substring (case-insensitive). -/
def titleContrib (l : LeadData) (e : EnrichedData) : Nat :=
  if highValueTitles.any (fun t => strIncludesCI (effectiveTitle l e) t)
  then 20 else 0

/-- The target-industry substring list of `calculateLeadScore`. -/
def targetIndustries : List String :=
  ["SaaS", "E-commerce", "Professional Services", "Marketing", "Wholesale"]

/-- The industry consulted for scoring:
`leadData.industry || enrichedData?.company?.industry || ''`. -/
def effectiveIndustry (l : LeadData) (e : EnrichedData) : String :=
  (jsOrStr l.industry (e.company.bind fun c => c.industry)).getD ""

/-- Industry contribution: +15 if the industry contains a target-industry
substring (case-insensitive). -/
def industryContrib (l : LeadData) (e : EnrichedData) : Nat :=
  if targetIndustries.any (fun ind => strIncludesCI (effectiveIndustry l e) ind)
  then 15 else 0

/-- The unclamped sum of all scoring contributions, in the order the JS
function accumulates them. -/
def rawScore (l : LeadData) (e : EnrichedData) : Nat :=
  companyContrib e + techContrib e + intentContrib e + titleContrib l e
    + industryContrib l e

/-- The Lead Scoring Engine `calculateLeadScore` of src/unnamed/part_001
(lines 273-320): accumulates the company, technology, intent, title and
industry contributions from 0 and returns `Math.min(score, 100)`. -/
def calculateLeadScore (l : LeadData) (e : EnrichedData) : Nat :=
  min (rawScore l e) 100

/-- The categorizer `getCategory` of src/hubspot-integration.js
(lines 175-180): HOT at 85, WARM at 60, QUALIFIED at 40, else COLD. -/
def getCategory (score : Int) : String :=
  if 85 ≤ score then "HOT"
  else if 60 ≤ score then "WARM"
  else if 40 ≤ score then "QUALIFIED"
  else "COLD"

/-- The deal-value estimator `estimateDealValue` of
src/hubspot-integration.js (lines 182-187). -/
def estimateDealValue (score : Int) : Int :=
  if 85 ≤ score then 100000
  else if 60 ≤ score then 50000
  else if 40 ≤ score then 25000
  else 10000

/-- The agent categorizer `GTMAgent.categorizeLead` of
src/unnamed/part_001 (lines 382-386): HOT at 40, WARM at 10, else COLD. -/
def categorizeLead (score : Int) : String :=
  if 40 ≤ score then "HOT"
  else if 10 ≤ score then "WARM"
  else "COLD"

/-- The per-category deal value stated by the band table
(HOT 100000, WARM 50000, QUALIFIED 25000, COLD 10000). -/
def categoryValue (category : String) : Int :=
  if category = "HOT" then 100000
  else if category = "WARM" then 50000
  else if category = "QUALIFIED" then 25000
  else 10000

/-- JS comparison `score >= n` where `score` may be `undefined`
(`undefined >= n` is false). -/
def scoreAtLeast (score : Option Int) (n : Int) : Bool :=
  match score with
  | none => false
  | some v => n ≤ v

/-- The Territory Assignment Engine `assignTerritory` of
src/unnamed/part_000 (lines 846-867): size rules first, then the
fintech override (industry fintech and score at least 80) overwrites
the result with the Enterprise territory and representative. -/
def assignTerritory (companySize industry : Option String)
    (score : Option Int) : String × String :=
  let base :=
    if companySize = some "1000+" then ("Enterprise Team", "Michael Chen")
    else if companySize = some "201-1000"
        ∨ (companySize = some "51-200" ∧ scoreAtLeast score 70 = true) then
      ("Mid-Market Team", "Alex Rodriguez")
    else ("SMB Team", "Sarah Johnson")
  if industry = some "fintech" ∧ scoreAtLeast score 80 = true then
    ("Enterprise Team", "Michael Chen")
  else base

/-- One intent signal as produced by the Clay integration
(src/hubspot-integration.js): a type, a strength tier and a score. -/
structure IntentSignal where
  type : String
  strength : String
  score : Nat
deriving DecidableEq, Repr

/-- The aggregate signal-strength tiering `calculateSignalStrength` of
src/hubspot-integration.js (lines 409-417). -/
def calculateSignalStrength (signals : List IntentSignal) : String :=
  let totalScore := signals.foldl (fun sum s => sum + s.score) 0
  if 50 ≤ totalScore then "very_high"
  else if 35 ≤ totalScore then "high"
  else if 20 ≤ totalScore then "medium"
  else if 0 < totalScore then "low"
  else "none"

/-- The funding intent signal produced by `checkFundingSignal`
(src/hubspot-integration.js lines 360-373) when a recent funding round
is detected. -/
def fundingSignal : IntentSignal :=
  { type := "funding", strength := "high", score := 25 }

/-!
Pipeline models.

The two server variants run straight-line pipelines whose external calls
are try/catch-isolated.  Each external collaborator call is modelled by
an abstract outcome (`CallOutcome`); the pipeline functions below are the
shallow embeddings of the handlers, parameterised by those outcomes and
producing the observable result: HTTP status, `success` flag, recorded
step results, recorded errors, and the ordered list of outbound CRM calls.
-/

/-- Outcome of one outbound collaborator call: a 2xx response, a non-2xx
response, or a thrown error. -/
inductive CallOutcome
  | ok
  | httpFail
  | thrown
deriving DecidableEq, Repr

/-- Outbound CRM calls, in the order they are issued. -/
inductive CrmCall
  | contactUpsert
  | dealCreate
deriving DecidableEq, Repr

/-- The CRM step `createHubSpotContact` of src/unnamed/part_000
(lines 272-324), as its trace of outbound CRM calls: in demo mode no
call is made; otherwise the contact POST is issued first, and the deal
POST (`createHubSpotDeal`) is issued only when the contact POST
succeeded and `enrichedLead.score >= 60`.  A 409 response is treated as
an existing contact and creates no deal; any other non-2xx response
throws (to the caller) and creates no deal. -/
def createHubSpotContactCalls (demoMode : Bool) (contactResp : CallOutcome)
    (score : Option Int) : List CrmCall :=
  if demoMode then []
  else
    CrmCall.contactUpsert ::
      (if contactResp = CallOutcome.ok ∧ scoreAtLeast score 60 = true then
        [CrmCall.dealCreate]
      else [])

/-- Configuration of the agent variant (src/unnamed/part_001): whether
HubSpot is configured, and the outcome of the contact upsert call when
it is. -/
structure AgentConfig where
  hubspotConfigured : Bool
  hubspotUpsert : CallOutcome
deriving DecidableEq, Repr

/-- Observable result of `GTMAgent.processLead`. -/
structure AgentResult where
  score : Nat
  category : String
  actions : List String
  crmCalls : List CrmCall
deriving DecidableEq, Repr

/-- The agent pipeline `GTMAgent.processLead` of src/unnamed/part_001
(lines 324-379): enrich (mock or Clay, never failing the pipeline, the
resulting profile is the `enriched` argument), score with
`calculateLeadScore`, categorize with `categorizeLead`, then, when
HubSpot is configured, upsert the contact inside a try/catch and create
a deal only after a successful upsert and only when `score >= 40`;
finally dispatch the category campaign action. -/
def processLead (cfg : AgentConfig) (lead : LeadData)
    (enriched : EnrichedData) : AgentResult :=
  let score := calculateLeadScore lead enriched
  let category := categorizeLead (score : Int)
  let crmCalls : List CrmCall :=
    if cfg.hubspotConfigured then
      CrmCall.contactUpsert ::
        (if cfg.hubspotUpsert = CallOutcome.ok ∧ 40 ≤ score then
          [CrmCall.dealCreate]
        else [])
    else []
  let hubspotActions : List String :=
    if cfg.hubspotConfigured then
      match cfg.hubspotUpsert with
      | CallOutcome.ok => "synced_hubspot" ::
          (if 40 ≤ score then ["deal_created"] else [])
      | _ => []
    else []
  let campaignAction : List String :=
    if category = "HOT" then ["hot_lead_campaign_triggered"]
    else if category = "WARM" then ["nurture_campaign_triggered"]
    else ["cold_lead_logged"]
  { score := score
    category := category
    actions := "enriched" :: "scored" :: (hubspotActions ++ campaignAction)
    crmCalls := crmCalls }

/-- Request body of `POST /api/leads` (src/unnamed/part_001): every field
optional, including `email`. -/
structure LeadsRequest where
  email : Option String
  firstName : Option String
  lastName : Option String
  company : Option String
  title : Option String
  jobtitle : Option String
  industry : Option String
deriving DecidableEq, Repr

/-- Observable result of the `POST /api/leads` handler: HTTP status,
`success` flag, score, category, dispatched actions, and the store keys
written to the in-memory `leads` map (`none` models an `undefined` key). -/
structure LeadsResponse where
  statusCode : Nat
  success : Bool
  score : Nat
  category : String
  actions : List String
  storedEmails : List (Option String)
deriving DecidableEq, Repr

/-- The `POST /api/leads` handler of src/unnamed/part_001 (lines 587-629):
it builds `leadData` from the body with defaults (`email: req.body.email`
taken as-is, with no validation), stores the lead under that email key,
runs `agent.processLead`, and responds 200 with `success: true`.  The
`enriched` argument is the profile produced by the enrichment step
(mock enrichment in the source); no step of this path throws, so the
500 catch branch is unreachable. -/
def postLeads (cfg : AgentConfig) (body : LeadsRequest)
    (enriched : EnrichedData) : LeadsResponse :=
  let leadData : LeadData :=
    { email := body.email
      title := jsOrStr body.title (jsOrStr body.jobtitle (some ""))
      industry := jsOrStr body.industry (some "")
      companySize := none }
  let r := processLead cfg leadData enriched
  { statusCode := 200
    success := true
    score := r.score
    category := r.category
    actions := r.actions
    storedEmails := [body.email] }

/-- Outcomes of the five collaborator calls of the GTM orchestrator
handler (src/unnamed/part_000). -/
structure GTMCollaborators where
  hubspot : CallOutcome
  slack : CallOutcome
  asana : CallOutcome
  zendesk : CallOutcome
  dealhub : CallOutcome
deriving DecidableEq, Repr

/-- Observable result of the GTM orchestrator `POST /api/hubspot/contacts`
handler: HTTP status, `success` flag, steps executed in order, the
per-step automation results, and the recorded per-step errors. -/
structure GTMResponse where
  statusCode : Nat
  success : Bool
  territory : String
  executedSteps : List String
  contactCreated : Bool
  slackResult : Bool
  asanaResult : Bool
  zendeskResult : Bool
  dealhubResult : Bool
  errors : List String
deriving DecidableEq, Repr

/-- The GTM orchestrator `POST /api/hubspot/contacts` handler of
src/unnamed/part_000 (lines 907-1042), in live (non-demo) mode:
territory assignment, Clay enrichment (falls back to mock, never fails
the pipeline, and leaves `score` and `territory` untouched), then the
try/catch-isolated collaborator fan-out in fixed order: HubSpot contact
(+deal), Slack (live webhook posts only for score at least 70; a non-2xx
response yields `false`), Asana (a non-2xx response yields no task),
Zendesk (only for score at least 60), DealHub (only for score at least
70 and Enterprise territory).  A thrown step error is pushed onto
`errors`; every failure leaves the remaining steps to run, and the final
response is always 200 with `success: true`. -/
def gtmContactsHandler (lead : LeadData) (score : Option Int)
    (c : GTMCollaborators) : GTMResponse :=
  let territory := (assignTerritory lead.companySize lead.industry score).1
  let zendeskRuns := scoreAtLeast score 60
  let dealhubRuns := scoreAtLeast score 70 && territory == "Enterprise Team"
  { statusCode := 200
    success := true
    territory := territory
    executedSteps :=
      ["territory", "enrich", "hubspot", "slack", "asana"]
        ++ (if zendeskRuns then ["zendesk"] else [])
        ++ (if dealhubRuns then ["dealhub"] else [])
    contactCreated := c.hubspot != CallOutcome.thrown
    slackResult := scoreAtLeast score 70 && c.slack == CallOutcome.ok
    asanaResult := c.asana == CallOutcome.ok
    zendeskResult := zendeskRuns && c.zendesk == CallOutcome.ok
    dealhubResult := dealhubRuns && c.dealhub == CallOutcome.ok
    errors :=
      (if c.hubspot = CallOutcome.thrown then ["HubSpot"] else [])
        ++ (if c.slack = CallOutcome.thrown then ["Slack"] else [])
        ++ (if c.asana = CallOutcome.thrown then ["Asana"] else [])
        ++ (if zendeskRuns && c.zendesk == CallOutcome.thrown then ["Zendesk"] else [])
        ++ (if dealhubRuns && c.dealhub == CallOutcome.thrown then ["DealHub"] else []) }

/-!
Concrete inputs used by witnesses and counterexamples.
-/

/-- The end-to-end scenario A lead: company size 1000+, industry fintech,
title CFO. -/
def lead9 : LeadData :=
  { email := some "jane@acme.com", title := some "CFO",
    industry := some "fintech", companySize := some "1000+" }

/-- The end-to-end scenario A enriched profile: revenue 60M, 200
employees, detected stack containing Salesforce, and the intent bundle
whose aggregate strength is the tier produced by
`calculateSignalStrength` from the recent-funding signal alone. -/
def profile9 : EnrichedData :=
  { company := some
      { revenue := some 60000000, employees := some 200,
        technologies := none, industry := none },
    technologies := some ["Salesforce"],
    intent := some { signalStrength := some (calculateSignalStrength [fundingSignal]) },
    person := none, funding := none }

/-- A lead with a high-value title, used for the technology-monotonicity
analysis. -/
def lead8 : LeadData :=
  { email := some "cfo@firm.com", title := some "CFO",
    industry := none, companySize := none }

/-- A profile whose non-technology contributions sum to 95: revenue 10M
(+25 and +10), 100 employees (+15), very_high intent (+25); with the
lead8 title (+20) the raw score is 95 and no technology is matched. -/
def prof8 : EnrichedData :=
  { company := some
      { revenue := some 10000000, employees := some 100,
        technologies := none, industry := none },
    technologies := some [],
    intent := some { signalStrength := some "very_high" },
    person := none, funding := none }

/-- prof8 with one more matched target technology in the detected stack. -/
def prof8b : EnrichedData := { prof8 with technologies := some ["Salesforce"] }

/-- A lead with no scoring-relevant fields. -/
def lead4 : LeadData :=
  { email := none, title := none, industry := none, companySize := none }

/-- A profile that flags a recent funding round (last round 30 days ago)
and nothing else. -/
def prof4 : EnrichedData :=
  { emptyProfile with
    funding := some { recentRound := true, daysSinceLastRound := some 30 } }

/-- A lead-submission body with no email field (and nothing else). -/
def body5 : LeadsRequest :=
  { email := none, firstName := none, lastName := none, company := none,
    title := none, jobtitle := none, industry := none }

/-- Agent configuration with HubSpot not configured (the inline default
of src/unnamed/part_001). -/
def cfg5 : AgentConfig :=
  { hubspotConfigured := false, hubspotUpsert := CallOutcome.ok }

/-- Agent configuration with HubSpot configured and the upsert call
succeeding. -/
def cfg7 : AgentConfig :=
  { hubspotConfigured := true, hubspotUpsert := CallOutcome.ok }

/-!
Claim theorems.
-/

/-- C1: for every lead and every enriched profile (including the
absent/empty profile), `calculateLeadScore` returns an integer score in
the range 0..100: it is the sum of the applicable non-negative
contributions (company, technology, intent, title, industry), clamped
to a maximum of 100 and never below 0.  Determinism is immediate since
the embedding is a pure function of its two arguments. -/
theorem calculateLeadScore_bounds (l : LeadData) (e : EnrichedData) :
    calculateLeadScore l e
      = min (companyContrib e + techContrib e + intentContrib e
              + titleContrib l e + industryContrib l e) 100
    ∧ 0 ≤ (calculateLeadScore l e : Int)
    ∧ (calculateLeadScore l e : Int) ≤ 100 := by
  refine ⟨rfl, by exact_mod_cast Nat.zero_le _, ?_⟩
  exact_mod_cast Nat.min_le_right _ _

/-- C2: both categorizers are total functions on integer scores, and
their threshold bands partition the integers into contiguous bands with
no gaps and no overlaps: `getCategory` maps exactly the scores at least
85 to HOT, 60..84 to WARM, 40..59 to QUALIFIED and at most 39 to COLD,
and `categorizeLead` maps exactly the scores at least 40 to HOT, 10..39
to WARM and at most 9 to COLD; by integer trichotomy every score falls
in exactly one band of each scheme. -/
theorem categorizers_partition (s : Int) :
    (getCategory s = "HOT" ↔ 85 ≤ s)
    ∧ (getCategory s = "WARM" ↔ 60 ≤ s ∧ s ≤ 84)
    ∧ (getCategory s = "QUALIFIED" ↔ 40 ≤ s ∧ s ≤ 59)
    ∧ (getCategory s = "COLD" ↔ s ≤ 39)
    ∧ (categorizeLead s = "HOT" ↔ 40 ≤ s)
    ∧ (categorizeLead s = "WARM" ↔ 10 ≤ s ∧ s ≤ 39)
    ∧ (categorizeLead s = "COLD" ↔ s ≤ 9) := by
  unfold getCategory categorizeLead
  split_ifs <;> simp_all <;> omega

/-- C3: territory assignment is a pure function of company size,
industry and score (immediate from the embedding being a function), and
for every company size bucket, industry fintech with a defined score of
at least 80 yields the Enterprise territory with representative Michael
Chen, the same pair the size-based rule assigns to every company of
size 1000+. -/
theorem assignTerritory_fintech_override (cs : Option String) (v : Int)
    (hv : 80 ≤ v) :
    assignTerritory cs (some "fintech") (some v) = ("Enterprise Team", "Michael Chen")
    ∧ ∀ (ind : Option String) (sc : Option Int),
        assignTerritory (some "1000+") ind sc = ("Enterprise Team", "Michael Chen") := by
  constructor
  · unfold assignTerritory
    have h : scoreAtLeast (some v) 80 = true := by
      simp [scoreAtLeast]; omega
    simp [h]
  · intro ind sc
    unfold assignTerritory
    split_ifs <;> simp_all

/-- C3 witness: the override applied to a 1-10 company with score 85,
and the size-based Enterprise assignment for a retail company with
score 0. -/
theorem assignTerritory_fintech_override_witness :
    assignTerritory (some "1-10") (some "fintech") (some 85)
        = ("Enterprise Team", "Michael Chen")
    ∧ assignTerritory (some "1000+") (some "retail") (some 0)
        = ("Enterprise Team", "Michael Chen") :=
  ⟨(assignTerritory_fintech_override (some "1-10") 85 (by norm_num)).1,
   (assignTerritory_fintech_override (some "1-10") 85 (by norm_num)).2
      (some "retail") (some 0)⟩

/-- C4 counterexample: a profile that flags a recent funding round
(30 days ago, hence within 180 days) and is otherwise empty scores 0,
not at least 20: `calculateLeadScore` contains no funding-recency rule,
refuting the claim that the score includes +20 for every lead with a
flagged recent funding round. -/
theorem funding_not_scored_counterexample :
    prof4.funding = some { recentRound := true, daysSinceLastRound := some 30 }
    ∧ calculateLeadScore lead4 prof4 = 0 :=
  ⟨rfl, by decide⟩

/-- C4 amended: `calculateLeadScore` has no funding-recency
contribution at all: the score is invariant under every change to the
profile's funding fields (funding influences the score only indirectly,
through the intent signal-strength tier). -/
theorem calculateLeadScore_ignores_funding (l : LeadData) (e : EnrichedData)
    (f : Option FundingData) :
    calculateLeadScore l { e with funding := f } = calculateLeadScore l e := by
  cases e
  rfl

/-- C5 counterexample: a lead-submission body with no email field is not
rejected: the handler responds 200 with success true, the enrichment
and scoring steps run, and the lead is stored under the undefined key,
refuting the claim that the endpoint fails fast with a 4xx-equivalent
and executes no pipeline step. -/
theorem missing_email_processed_counterexample :
    body5.email = none
    ∧ (postLeads cfg5 body5 emptyProfile).statusCode = 200
    ∧ (postLeads cfg5 body5 emptyProfile).success = true
    ∧ "enriched" ∈ (postLeads cfg5 body5 emptyProfile).actions
    ∧ "scored" ∈ (postLeads cfg5 body5 emptyProfile).actions
    ∧ (postLeads cfg5 body5 emptyProfile).storedEmails = [none] := by
  refine ⟨rfl, rfl, rfl, ?_, ?_, rfl⟩ <;> decide

/-- C5 amended: the `POST /api/leads` handler performs no email
validation: for every request body lacking email, the full pipeline
still executes (store write under the missing key, enrichment, scoring,
campaign dispatch) and the response is HTTP 200 with success true. -/
theorem postLeads_no_email_validation (cfg : AgentConfig) (body : LeadsRequest)
    (e : EnrichedData) (h : body.email = none) :
    (postLeads cfg body e).statusCode = 200
    ∧ (postLeads cfg body e).success = true
    ∧ "enriched" ∈ (postLeads cfg body e).actions
    ∧ "scored" ∈ (postLeads cfg body e).actions
    ∧ (postLeads cfg body e).storedEmails = [none] := by
  refine ⟨rfl, rfl, ?_, ?_, ?_⟩
  · simp [postLeads, processLead]
  · simp [postLeads, processLead]
  · simp [postLeads, h]

/-- C5 witness: the amended claim at the concrete email-less body. -/
theorem postLeads_no_email_validation_witness :
    (postLeads cfg7 body5 emptyProfile).statusCode = 200
    ∧ (postLeads cfg7 body5 emptyProfile).success = true
    ∧ "enriched" ∈ (postLeads cfg7 body5 emptyProfile).actions
    ∧ "scored" ∈ (postLeads cfg7 body5 emptyProfile).actions
    ∧ (postLeads cfg7 body5 emptyProfile).storedEmails = [none] :=
  postLeads_no_email_validation cfg7 body5 emptyProfile rfl

/-- C6: in the GTM orchestrator handler, for every lead and every
combination of collaborator outcomes, the aggregate response is 200
with success true; the Slack and Asana steps always execute and the
Zendesk and DealHub steps execute exactly when their score/territory
policies say so, independently of every other step's outcome; each
step's recorded result depends only on that step's own outcome (and its
policy conditions); and a step's thrown error is recorded per-step in
the errors list exactly when that step threw. -/
theorem gtm_fanout_isolation (lead : LeadData) (score : Option Int)
    (c : GTMCollaborators) :
    (gtmContactsHandler lead score c).success = true
    ∧ (gtmContactsHandler lead score c).statusCode = 200
    ∧ "hubspot" ∈ (gtmContactsHandler lead score c).executedSteps
    ∧ "slack" ∈ (gtmContactsHandler lead score c).executedSteps
    ∧ "asana" ∈ (gtmContactsHandler lead score c).executedSteps
    ∧ (gtmContactsHandler lead score c).executedSteps.contains "zendesk"
        = scoreAtLeast score 60
    ∧ (gtmContactsHandler lead score c).executedSteps.contains "dealhub"
        = (scoreAtLeast score 70
            && (assignTerritory lead.companySize lead.industry score).1 == "Enterprise Team")
    ∧ (gtmContactsHandler lead score c).slackResult
        = (scoreAtLeast score 70 && c.slack == CallOutcome.ok)
    ∧ (gtmContactsHandler lead score c).asanaResult = (c.asana == CallOutcome.ok)
    ∧ (gtmContactsHandler lead score c).zendeskResult
        = (scoreAtLeast score 60 && c.zendesk == CallOutcome.ok)
    ∧ (gtmContactsHandler lead score c).dealhubResult
        = ((scoreAtLeast score 70
            && (assignTerritory lead.companySize lead.industry score).1 == "Enterprise Team")
           && c.dealhub == CallOutcome.ok)
    ∧ (gtmContactsHandler lead score c).errors.contains "Slack"
        = (c.slack == CallOutcome.thrown)
    ∧ (gtmContactsHandler lead score c).errors.contains "Asana"
        = (c.asana == CallOutcome.thrown)
    ∧ (gtmContactsHandler lead score c).errors.contains "HubSpot"
        = (c.hubspot == CallOutcome.thrown)
    ∧ (gtmContactsHandler lead score c).errors.contains "Zendesk"
        = (scoreAtLeast score 60 && c.zendesk == CallOutcome.thrown) := by
  obtain ⟨ch, cs, ca, cz, cd⟩ := c
  refine ⟨rfl, rfl, ?_, ?_, ?_, ?_, ?_, rfl, rfl, rfl, rfl, ?_, ?_, ?_, ?_⟩ <;>
    simp only [gtmContactsHandler] <;> split_ifs <;> simp_all

/-- C7: in both pipeline variants, a deal-creation call occurs only
after the CRM contact call, and never when the score is below the
qualification threshold (60 in the GTM orchestrator's
`createHubSpotContact`, 40 in the agent's `processLead`): whenever the
trace contains a deal creation, the trace is exactly contact upsert
followed by deal creation and the threshold holds. -/
theorem crm_upsert_precedes_deal (dm : Bool) (resp : CallOutcome)
    (score : Option Int) (cfg : AgentConfig) (l : LeadData) (e : EnrichedData) :
    (CrmCall.dealCreate ∈ createHubSpotContactCalls dm resp score →
      createHubSpotContactCalls dm resp score
          = [CrmCall.contactUpsert, CrmCall.dealCreate]
        ∧ scoreAtLeast score 60 = true)
    ∧ (CrmCall.dealCreate ∈ (processLead cfg l e).crmCalls →
      (processLead cfg l e).crmCalls
          = [CrmCall.contactUpsert, CrmCall.dealCreate]
        ∧ 40 ≤ (processLead cfg l e).score) := by
  constructor
  · intro hmem
    unfold createHubSpotContactCalls at *
    split_ifs at hmem with h1 h2 <;> simp_all
  · intro hmem
    simp only [processLead] at *
    split_ifs at hmem with h1 h2 <;> simp_all

/-- C7 witness: both trace shapes at concrete inputs producing a deal:
the orchestrator in live mode with a successful contact POST and score
75, and the agent with HubSpot configured and a lead scoring 95. -/
theorem crm_upsert_precedes_deal_witness :
    (createHubSpotContactCalls false CallOutcome.ok (some 75)
        = [CrmCall.contactUpsert, CrmCall.dealCreate]
      ∧ scoreAtLeast (some 75) 60 = true)
    ∧ ((processLead cfg7 lead8 prof8).crmCalls
        = [CrmCall.contactUpsert, CrmCall.dealCreate]
      ∧ 40 ≤ (processLead cfg7 lead8 prof8).score) :=
  ⟨(crm_upsert_precedes_deal false CallOutcome.ok (some 75) cfg7 lead8 prof8).1
      (by decide),
   (crm_upsert_precedes_deal false CallOutcome.ok (some 75) cfg7 lead8 prof8).2
      (by decide)⟩

/-- C8 counterexample: with the non-technology contributions summing to
95, adding one more matched target technology (the matched count rises
from 0 to 1) moves the score from 95 to 100: the increase is 5, not 10,
although the score was not already clamped at 100, refuting the claimed
strict increase by 10 whenever not already clamped. -/
theorem tech_plus_ten_counterexample :
    prof8b = { prof8 with technologies := some ["Salesforce"] }
    ∧ techMatches ["Salesforce"] = techMatches [] + 1
    ∧ calculateLeadScore lead8 prof8 = 95
    ∧ calculateLeadScore lead8 prof8b = 100
    ∧ calculateLeadScore lead8 prof8 ≠ 100
    ∧ calculateLeadScore lead8 prof8b ≠ calculateLeadScore lead8 prof8 + 10 := by
  refine ⟨rfl, ?_, ?_, ?_, ?_, ?_⟩ <;> decide

/-- C8 amended: adding one more matched target technology to the
profile's technology list (all other inputs fixed) never decreases the
final score; the score strictly increases unless it is already clamped
at 100; and the new score is exactly the old unclamped sum plus 10,
clamped at 100 — so the increase is exactly 10 precisely while the
clamp does not bind. -/
theorem tech_match_monotone (l : LeadData) (e : EnrichedData)
    (ts : List String) (t : String)
    (hts : e.technologies = some ts)
    (hm : techMatches (t :: ts) = techMatches ts + 1) :
    calculateLeadScore l e
        ≤ calculateLeadScore l { e with technologies := some (t :: ts) }
    ∧ (calculateLeadScore l e
          < calculateLeadScore l { e with technologies := some (t :: ts) }
        ∨ calculateLeadScore l e = 100)
    ∧ calculateLeadScore l { e with technologies := some (t :: ts) }
        = min (rawScore l e + 10) 100 := by
  obtain ⟨co, te, it, pe, fu⟩ := e
  simp only at hts
  subst hts
  have hraw : rawScore l ⟨co, some (t :: ts), it, pe, fu⟩
      = rawScore l ⟨co, some ts, it, pe, fu⟩ + 10 := by
    simp [rawScore, companyContrib, techContrib, techList, intentContrib,
      titleContrib, industryContrib, effectiveTitle, effectiveIndustry, hm]
    ring
  simp only [calculateLeadScore]
  rw [hraw]
  omega

/-- C8 witness: the amended claim at the concrete profile whose
matched-technology count rises from 0 to 1. -/
theorem tech_match_monotone_witness :
    calculateLeadScore lead8 prof8
        ≤ calculateLeadScore lead8 { prof8 with technologies := some ["Salesforce"] }
    ∧ (calculateLeadScore lead8 prof8
          < calculateLeadScore lead8 { prof8 with technologies := some ["Salesforce"] }
        ∨ calculateLeadScore lead8 prof8 = 100)
    ∧ calculateLeadScore lead8 { prof8 with technologies := some ["Salesforce"] }
        = min (rawScore lead8 prof8 + 10) 100 :=
  tech_match_monotone lead8 prof8 [] "Salesforce" rfl (by decide)

/-- C9: end-to-end scenario A: for the lead with company size 1000+,
industry fintech, revenue 60M, 200 employees, detected stack containing
Salesforce, title CFO and a recent funding round (whose lone intent
signal aggregates to the medium tier under `calculateSignalStrength`),
the score is at least 85 (here +25 revenue, +15 employees, +10
technology, +15 intent, +20 title = 85), the category is HOT, and the
territory is Enterprise with the Enterprise representative. -/
theorem scenario_a_end_to_end :
    calculateSignalStrength [fundingSignal] = "medium"
    ∧ 85 ≤ calculateLeadScore lead9 profile9
    ∧ getCategory (calculateLeadScore lead9 profile9 : Int) = "HOT"
    ∧ assignTerritory lead9.companySize lead9.industry
        (some (calculateLeadScore lead9 profile9 : Int))
        = ("Enterprise Team", "Michael Chen")
    ∧ (assignTerritory (some "1000+") none none).2 = "Michael Chen" := by
  refine ⟨?_, ?_, ?_, ?_, ?_⟩ <;> decide

/-- C10: the estimated deal value is determined solely by the category
band: for all integer scores, equal categories give equal estimated
deal values, because `estimateDealValue` equals the band table
(HOT 100000, WARM 50000, QUALIFIED 25000, COLD 10000) composed with
`getCategory` — both functions use the thresholds 85/60/40. -/
theorem dealValue_determined_by_category (s1 s2 : Int) :
    (getCategory s1 = getCategory s2 → estimateDealValue s1 = estimateDealValue s2)
    ∧ estimateDealValue s1 = categoryValue (getCategory s1) := by
  have key : ∀ s : Int, estimateDealValue s = categoryValue (getCategory s) := by
    intro s
    unfold estimateDealValue getCategory categoryValue
    split_ifs <;> simp_all
  exact ⟨fun h => by rw [key s1, key s2, h], key s1⟩

/-- C10 witness: two distinct QUALIFIED scores share the estimated deal
value, which matches the band table. -/
theorem dealValue_determined_by_category_witness :
    estimateDealValue 50 = estimateDealValue 45
    ∧ estimateDealValue 50 = categoryValue (getCategory 50) :=
  ⟨(dealValue_determined_by_category 50 45).1 (by decide),
   (dealValue_determined_by_category 50 45).2⟩
